import Mathlib

/-!
Verification of the LULC (land-use/land-cover) change-detection core in
`backend-python/lulc.py`.

Embedding choices:
* A multispectral pixel array of shape (H, W, B) is a function
  `Fin H → Fin W → Fin B → ℚ`; a 2D index array or class mask is
  `Fin H → Fin W → ℚ`.  Python floats are modelled by exact rationals.
* Numpy elementwise operations become pointwise functions; in-place
  priority masking (`vegetation[built_up > 0] = 0`) becomes a
  let-rebinding of the same name, preserving statement order.
* `np.sum` over a 2D array is the double `Finset.sum` over `Fin H`
  and `Fin W`; `mask.size` is `H * W`.
* Numpy booleans are `Bool` (numerically `True = 1`, `False = 0`);
  the unified change mask `total_change` is such a boolean array, and
  the rendered `change_map` image scales it to `{0, 255}`.
-/

/-- A multispectral image of shape (Height, Width, Bands): `lulc.py`'s
`numpy.ndarray` after `read_and_preprocess`. -/
def Img (H W B : ℕ) : Type := Fin H → Fin W → Fin B → ℚ

/-- A 2D float array of shape (Height, Width): index arrays and class masks. -/
def Arr (H W : ℕ) : Type := Fin H → Fin W → ℚ

/-- `np.clip(x, lo, hi)`. -/
def np_clip (x lo hi : ℚ) : ℚ := min (max x lo) hi

/-- The ε = 1e-8 guard added to every index denominator. -/
def eps : ℚ := 1 / 100000000

/-- `calculate_ndvi` (lulc.py lines 158-178): if the image has fewer than 4
bands, return a zero array of shape (H, W); otherwise
NDVI = clip((NIR − Red) / (NIR + Red + 1e-8), −1, 1) with NIR = band 3,
Red = band 2. -/
def calculate_ndvi {H W B : ℕ} (image : Img H W B) : Arr H W :=
  if h : B < 4 then
    fun _ _ => 0
  else
    fun i j =>
      let nir := image i j ⟨3, by omega⟩
      let red := image i j ⟨2, by omega⟩
      np_clip ((nir - red) / (nir + red + eps)) (-1) 1

/-- `calculate_ndwi` (lulc.py lines 181-201): if the image has fewer than 4
bands, return a zero array of shape (H, W); otherwise
NDWI = clip((Green − NIR) / (Green + NIR + 1e-8), −1, 1) with Green = band 1,
NIR = band 3. -/
def calculate_ndwi {H W B : ℕ} (image : Img H W B) : Arr H W :=
  if h : B < 4 then
    fun _ _ => 0
  else
    fun i j =>
      let green := image i j ⟨1, by omega⟩
      let nir := image i j ⟨3, by omega⟩
      np_clip ((green - nir) / (green + nir + eps)) (-1) 1

/-- `calculate_ndbi` (lulc.py lines 204-224): if the image has fewer than 5
bands, return a zero array of shape (H, W); otherwise
NDBI = clip((SWIR − NIR) / (SWIR + NIR + 1e-8), −1, 1) with SWIR = band 4,
NIR = band 3. -/
def calculate_ndbi {H W B : ℕ} (image : Img H W B) : Arr H W :=
  if h : B < 5 then
    fun _ _ => 0
  else
    fun i j =>
      let swir := image i j ⟨4, by omega⟩
      let nir := image i j ⟨3, by omega⟩
      np_clip ((swir - nir) / (swir + nir + eps)) (-1) 1

/-- The tuple `(built_up, water, forest, vegetation, barren)` returned by
`classify_land_cover`. -/
structure LandCoverMasks (H W : ℕ) where
  built_up : Arr H W
  water : Arr H W
  forest : Arr H W
  vegetation : Arr H W
  barren : Arr H W

/-- `classify_land_cover` (lulc.py lines 227-256): primary threshold
predicates cast to float, then in-place priority masking — built-up clears
{vegetation, forest, barren}, then water clears {forest, vegetation,
barren, built_up}.  The sequential mutations become let-rebindings in the
source's statement order. -/
def classify_land_cover {H W : ℕ} (ndvi ndwi ndbi : Arr H W) : LandCoverMasks H W :=
  let built_up : Arr H W := fun i j => if ndbi i j > 0 then 1 else 0
  let forest : Arr H W := fun i j => if ndvi i j > 0.5 then 1 else 0
  let vegetation : Arr H W := fun i j => if ndvi i j > 0.1 ∧ ndvi i j ≤ 0.5 then 1 else 0
  let water : Arr H W := fun i j => if ndwi i j > 0 then 1 else 0
  let barren : Arr H W := fun i j => if ndvi i j ≥ -0.1 ∧ ndvi i j ≤ 0.1 then 1 else 0
  let vegetation : Arr H W := fun i j => if built_up i j > 0 then 0 else vegetation i j
  let forest : Arr H W := fun i j => if built_up i j > 0 then 0 else forest i j
  let barren : Arr H W := fun i j => if built_up i j > 0 then 0 else barren i j
  let forest : Arr H W := fun i j => if water i j > 0 then 0 else forest i j
  let vegetation : Arr H W := fun i j => if water i j > 0 then 0 else vegetation i j
  let barren : Arr H W := fun i j => if water i j > 0 then 0 else barren i j
  let built_up : Arr H W := fun i j => if water i j > 0 then 0 else built_up i j
  ⟨built_up, water, forest, vegetation, barren⟩

/-- `np.sum` over a 2D array. -/
def np_sum {H W : ℕ} (a : Arr H W) : ℚ := ∑ i : Fin H, ∑ j : Fin W, a i j

/-- The number of 1.0-valued pixels of a 2D array (the spec's "count of
1.0-valued pixels"). -/
def countOnes {H W : ℕ} (a : Arr H W) : ℕ :=
  ∑ i : Fin H, ∑ j : Fin W, if a i j = 1 then 1 else 0

/-- The dict returned by `calculate_land_cover_percentages`: class
name ("Built-up Area", "Water", "Forest", "Vegetation", "Barren Land")
to percentage. -/
structure Percentages where
  built_up : ℚ
  water : ℚ
  forest : ℚ
  vegetation : ℚ
  barren : ℚ

/-- `calculate_land_cover_percentages` (lulc.py lines 259-277):
`np.sum(mask) / total_pixels * 100` for each class, with
`total_pixels = built_up.size = H * W`. -/
def calculate_land_cover_percentages {H W : ℕ}
    (built_up water forest vegetation barren : Arr H W) : Percentages :=
  let total_pixels : ℚ := ((H * W : ℕ) : ℚ)
  { built_up := np_sum built_up / total_pixels * 100
    water := np_sum water / total_pixels * 100
    forest := np_sum forest / total_pixels * 100
    vegetation := np_sum vegetation / total_pixels * 100
    barren := np_sum barren / total_pixels * 100 }

/-- The fixed change-detection threshold (lulc.py line 296). -/
def change_threshold : ℚ := 0.1

/-- The unified change mask `total_change` built inside `create_change_map`
(lulc.py lines 292-305): per-class `|mask2 − mask1| > 0.1` flags combined
with `|` (logical OR).  A numpy boolean `True` is numerically 1. -/
def total_change {H W : ℕ} (masks1 masks2 : LandCoverMasks H W) :
    Fin H → Fin W → Bool := fun i j =>
  decide (|masks2.built_up i j - masks1.built_up i j| > change_threshold) ||
  decide (|masks2.water i j - masks1.water i j| > change_threshold) ||
  decide (|masks2.forest i j - masks1.forest i j| > change_threshold) ||
  decide (|masks2.vegetation i j - masks1.vegetation i j| > change_threshold) ||
  decide (|masks2.barren i j - masks1.barren i j| > change_threshold)

/-- `create_change_map` (lulc.py lines 280-315): the uint8 image written to
disk, 255 (white) where the unified change mask is set, 0 (black) elsewhere. -/
def create_change_map {H W : ℕ} (masks1 masks2 : LandCoverMasks H W) :
    Fin H → Fin W → ℕ := fun i j =>
  if total_change masks1 masks2 i j then 255 else 0

/-- The per-class signed deltas
`change_stats = {k: perc2[k] - perc1[k] for k in perc1}` (lulc.py line 431). -/
def change_stats (perc1 perc2 : Percentages) : Percentages :=
  { built_up := perc2.built_up - perc1.built_up
    water := perc2.water - perc1.water
    forest := perc2.forest - perc1.forest
    vegetation := perc2.vegetation - perc1.vegetation
    barren := perc2.barren - perc1.barren }

/-- `total_change_area = sum(abs(v) for v in change_stats.values()) / 2`
(lulc.py line 463). -/
def total_change_area (cs : Percentages) : ℚ :=
  (|cs.built_up| + |cs.water| + |cs.forest| + |cs.vegetation| + |cs.barren|) / 2

/-- The dict returned by `run_lulc_change_analysis`, together with the
unified change mask it hands to `create_change_map`. -/
structure AnalysisResult (H W : ℕ) where
  image1 : Percentages
  image2 : Percentages
  change : Percentages
  change_area : ℚ
  change_mask : Fin H → Fin W → Bool

/-- The computational core of `run_lulc_change_analysis` (lulc.py lines
374-464), with I/O, preview rendering, logging, plotting and CSV export
stripped: indices ×2 → classification ×2 → change mask → percentages ×2 →
deltas → result record. -/
def run_lulc_change_analysis {H W B1 B2 : ℕ}
    (image1 : Img H W B1) (image2 : Img H W B2) : AnalysisResult H W :=
  let ndvi1 := calculate_ndvi image1
  let ndvi2 := calculate_ndvi image2
  let ndwi1 := calculate_ndwi image1
  let ndwi2 := calculate_ndwi image2
  let ndbi1 := calculate_ndbi image1
  let ndbi2 := calculate_ndbi image2
  let masks1 := classify_land_cover ndvi1 ndwi1 ndbi1
  let masks2 := classify_land_cover ndvi2 ndwi2 ndbi2
  let cmask := total_change masks1 masks2
  let perc1 := calculate_land_cover_percentages
    masks1.built_up masks1.water masks1.forest masks1.vegetation masks1.barren
  let perc2 := calculate_land_cover_percentages
    masks2.built_up masks2.water masks2.forest masks2.vegetation masks2.barren
  let cs := change_stats perc1 perc2
  { image1 := perc1, image2 := perc2, change := cs,
    change_area := total_change_area cs, change_mask := cmask }

/-- A 2D float array is binary when every pixel is 0.0 or 1.0. -/
def IsBinary {H W : ℕ} (a : Arr H W) : Prop := ∀ i j, a i j = 0 ∨ a i j = 1

/-- All five class masks are binary. -/
def BinaryMasks {H W : ℕ} (m : LandCoverMasks H W) : Prop :=
  IsBinary m.built_up ∧ IsBinary m.water ∧ IsBinary m.forest ∧
    IsBinary m.vegetation ∧ IsBinary m.barren

/-- A float cast of a boolean predicate is positive iff the predicate holds:
the bridge between numpy's `mask > 0` conditions and the predicates. -/
lemma ind_pos (P : Prop) [Decidable P] : (0 < if P then (1:ℚ) else 0) ↔ P := by
  split_ifs with h <;> simp [h]

/-- Pointwise value of the final `built_up` mask. -/
lemma classify_built_up_eq {H W : ℕ} (ndvi ndwi ndbi : Arr H W) (i : Fin H) (j : Fin W) :
    (classify_land_cover ndvi ndwi ndbi).built_up i j
      = if ndwi i j > 0 then 0 else if ndbi i j > 0 then 1 else 0 := by
  simp only [classify_land_cover, gt_iff_lt, ind_pos]

/-- Pointwise value of the final `water` mask. -/
lemma classify_water_eq {H W : ℕ} (ndvi ndwi ndbi : Arr H W) (i : Fin H) (j : Fin W) :
    (classify_land_cover ndvi ndwi ndbi).water i j
      = if ndwi i j > 0 then 1 else 0 := by
  simp only [classify_land_cover, gt_iff_lt, ind_pos]

/-- Pointwise value of the final `forest` mask. -/
lemma classify_forest_eq {H W : ℕ} (ndvi ndwi ndbi : Arr H W) (i : Fin H) (j : Fin W) :
    (classify_land_cover ndvi ndwi ndbi).forest i j
      = if ndwi i j > 0 then 0 else if ndbi i j > 0 then 0
        else if ndvi i j > 0.5 then 1 else 0 := by
  simp only [classify_land_cover, gt_iff_lt, ind_pos]

/-- Pointwise value of the final `vegetation` mask. -/
lemma classify_vegetation_eq {H W : ℕ} (ndvi ndwi ndbi : Arr H W) (i : Fin H) (j : Fin W) :
    (classify_land_cover ndvi ndwi ndbi).vegetation i j
      = if ndwi i j > 0 then 0 else if ndbi i j > 0 then 0
        else if ndvi i j > 0.1 ∧ ndvi i j ≤ 0.5 then 1 else 0 := by
  simp only [classify_land_cover, gt_iff_lt, ind_pos]

/-- Pointwise value of the final `barren` mask. -/
lemma classify_barren_eq {H W : ℕ} (ndvi ndwi ndbi : Arr H W) (i : Fin H) (j : Fin W) :
    (classify_land_cover ndvi ndwi ndbi).barren i j
      = if ndwi i j > 0 then 0 else if ndbi i j > 0 then 0
        else if ndvi i j ≥ -0.1 ∧ ndvi i j ≤ 0.1 then 1 else 0 := by
  simp only [classify_land_cover, gt_iff_lt, ind_pos]

/-- C1: for every triple of same-shape index arrays, the five masks returned
by `classify_land_cover` are mutually exclusive: at every pixel, at most one
of {built_up, water, forest, vegetation, barren} equals 1.0 (a pixel may
belong to zero classes). -/
theorem classify_masks_mutually_exclusive {H W : ℕ} (ndvi ndwi ndbi : Arr H W)
    (i : Fin H) (j : Fin W) :
    List.count 1 [(classify_land_cover ndvi ndwi ndbi).built_up i j,
      (classify_land_cover ndvi ndwi ndbi).water i j,
      (classify_land_cover ndvi ndwi ndbi).forest i j,
      (classify_land_cover ndvi ndwi ndbi).vegetation i j,
      (classify_land_cover ndvi ndwi ndbi).barren i j] ≤ 1 := by
  simp only [classify_built_up_eq, classify_water_eq, classify_forest_eq,
    classify_vegetation_eq, classify_barren_eq]
  split_ifs <;> simp_all [List.count_cons] <;> linarith

/-- C2: `classify_land_cover` applies the precedence
water > built_up > forest/vegetation/barren: where NDBI > 0 the final
forest, vegetation and barren masks are 0; where NDWI > 0 the final forest,
vegetation, barren and built_up masks are 0 and water is 1; a pixel with
NDVI = 0.6, NDBI = 0.2 and NDWI ≤ 0 ends up built_up, and a pixel with
NDWI = 0.3 and NDBI = 0.2 ends up water. -/
theorem classify_priority_order {H W : ℕ} (ndvi ndwi ndbi : Arr H W)
    (i : Fin H) (j : Fin W) :
    (ndbi i j > 0 →
      (classify_land_cover ndvi ndwi ndbi).forest i j = 0 ∧
      (classify_land_cover ndvi ndwi ndbi).vegetation i j = 0 ∧
      (classify_land_cover ndvi ndwi ndbi).barren i j = 0) ∧
    (ndwi i j > 0 →
      (classify_land_cover ndvi ndwi ndbi).forest i j = 0 ∧
      (classify_land_cover ndvi ndwi ndbi).vegetation i j = 0 ∧
      (classify_land_cover ndvi ndwi ndbi).barren i j = 0 ∧
      (classify_land_cover ndvi ndwi ndbi).built_up i j = 0 ∧
      (classify_land_cover ndvi ndwi ndbi).water i j = 1) ∧
    (ndvi i j = 0.6 → ndbi i j = 0.2 → ndwi i j ≤ 0 →
      (classify_land_cover ndvi ndwi ndbi).built_up i j = 1 ∧
      (classify_land_cover ndvi ndwi ndbi).water i j = 0 ∧
      (classify_land_cover ndvi ndwi ndbi).forest i j = 0 ∧
      (classify_land_cover ndvi ndwi ndbi).vegetation i j = 0 ∧
      (classify_land_cover ndvi ndwi ndbi).barren i j = 0) ∧
    (ndwi i j = 0.3 → ndbi i j = 0.2 →
      (classify_land_cover ndvi ndwi ndbi).water i j = 1 ∧
      (classify_land_cover ndvi ndwi ndbi).built_up i j = 0 ∧
      (classify_land_cover ndvi ndwi ndbi).forest i j = 0 ∧
      (classify_land_cover ndvi ndwi ndbi).vegetation i j = 0 ∧
      (classify_land_cover ndvi ndwi ndbi).barren i j = 0) := by
  simp only [classify_built_up_eq, classify_water_eq, classify_forest_eq,
    classify_vegetation_eq, classify_barren_eq]
  refine ⟨fun hb => ?_, fun hw => ?_, fun hv hb hw => ?_, fun hw hb => ?_⟩ <;>
    split_ifs <;> simp_all <;> linarith

/-- Witness for C2: on a 1×1 image, NDVI = 0.6 with NDBI = 0.2 and
NDWI = −0.2 classifies as built-up, and NDWI = 0.3 with NDBI = 0.2
classifies as water. -/
theorem classify_priority_order_witness :
    (classify_land_cover (fun _ _ => 0.6) (fun _ _ => -0.2) (fun _ _ => 0.2)
      : LandCoverMasks 1 1).built_up 0 0 = 1 ∧
    (classify_land_cover (fun _ _ => 0.0) (fun _ _ => 0.3) (fun _ _ => 0.2)
      : LandCoverMasks 1 1).water 0 0 = 1 := by
  constructor
  · exact ((classify_priority_order (fun _ _ => 0.6) (fun _ _ => -0.2)
      (fun _ _ => 0.2) 0 0).2.2.1 rfl rfl (by norm_num)).1
  · exact ((classify_priority_order (fun _ _ => 0.0) (fun _ _ => 0.3)
      (fun _ _ => 0.2) 0 0).2.2.2 rfl rfl).1

/-- `np.clip(x, -1, 1)` lands in [-1, 1]. -/
lemma np_clip_bounds (x : ℚ) : -1 ≤ np_clip x (-1) 1 ∧ np_clip x (-1) 1 ≤ 1 :=
  ⟨le_min (le_max_right _ _) (by norm_num), min_le_right _ _⟩

/-- C5: for every input pixel array (any band count, any band values), every
pixel of the arrays returned by `calculate_ndvi`, `calculate_ndwi` and
`calculate_ndbi` lies in [-1, 1]; the clip is applied after the division. -/
theorem index_values_in_range {H W B : ℕ} (image : Img H W B) (i : Fin H) (j : Fin W) :
    (-1 ≤ calculate_ndvi image i j ∧ calculate_ndvi image i j ≤ 1) ∧
    (-1 ≤ calculate_ndwi image i j ∧ calculate_ndwi image i j ≤ 1) ∧
    (-1 ≤ calculate_ndbi image i j ∧ calculate_ndbi image i j ≤ 1) := by
  refine ⟨?_, ?_, ?_⟩ <;>
    simp only [calculate_ndvi, calculate_ndwi, calculate_ndbi] <;>
    split_ifs <;> first | exact np_clip_bounds _ | norm_num

/-- C6: with fewer than 4 bands, `calculate_ndvi` and `calculate_ndwi`
return all-zero (H, W) arrays rather than failing; with fewer than 5 bands,
`calculate_ndbi` returns an all-zero (H, W) array. -/
theorem insufficient_bands_zero {H W B : ℕ} (image : Img H W B) (i : Fin H) (j : Fin W) :
    (B < 4 → calculate_ndvi image i j = 0 ∧ calculate_ndwi image i j = 0) ∧
    (B < 5 → calculate_ndbi image i j = 0) := by
  constructor
  · intro h
    constructor <;> simp [calculate_ndvi, calculate_ndwi, h]
  · intro h
    simp [calculate_ndbi, h]

/-- Witness for C6: a 3-band constant image yields zero NDVI, NDWI, NDBI. -/
theorem insufficient_bands_zero_witness :
    calculate_ndvi (fun _ _ _ => 7 : Img 1 1 3) 0 0 = 0 ∧
    calculate_ndwi (fun _ _ _ => 7 : Img 1 1 3) 0 0 = 0 ∧
    calculate_ndbi (fun _ _ _ => 7 : Img 1 1 3) 0 0 = 0 := by
  obtain ⟨h1, h2⟩ := insufficient_bands_zero (fun _ _ _ => 7 : Img 1 1 3) 0 0
  have h := h1 (by norm_num)
  exact ⟨h.1, h.2, h2 (by norm_num)⟩

/-- C7: with at least 4 bands, `calculate_ndvi` is pixelwise
clip((band3 − band2)/(band3 + band2 + 1e-8), -1, 1) and `calculate_ndwi`
is clip((band1 − band3)/(band1 + band3 + 1e-8), -1, 1); with at least
5 bands, `calculate_ndbi` is
clip((band4 − band3)/(band4 + band3 + 1e-8), -1, 1). -/
theorem index_formulas {H W B : ℕ} (image : Img H W B) (i : Fin H) (j : Fin W) :
    (∀ h4 : 4 ≤ B,
      calculate_ndvi image i j
        = np_clip ((image i j ⟨3, by omega⟩ - image i j ⟨2, by omega⟩) /
            (image i j ⟨3, by omega⟩ + image i j ⟨2, by omega⟩ + eps)) (-1) 1 ∧
      calculate_ndwi image i j
        = np_clip ((image i j ⟨1, by omega⟩ - image i j ⟨3, by omega⟩) /
            (image i j ⟨1, by omega⟩ + image i j ⟨3, by omega⟩ + eps)) (-1) 1) ∧
    (∀ h5 : 5 ≤ B,
      calculate_ndbi image i j
        = np_clip ((image i j ⟨4, by omega⟩ - image i j ⟨3, by omega⟩) /
            (image i j ⟨4, by omega⟩ + image i j ⟨3, by omega⟩ + eps)) (-1) 1) := by
  refine ⟨fun h4 => ⟨?_, ?_⟩, fun h5 => ?_⟩
  · simp only [calculate_ndvi]; rw [dif_neg (by omega)]
  · simp only [calculate_ndwi]; rw [dif_neg (by omega)]
  · simp only [calculate_ndbi]; rw [dif_neg (by omega)]

/-- Witness for C7: on the 1×1 5-band image whose band b has value b, the
three indices evaluate to the clipped normalized differences of bands
(3,2), (1,3) and (4,3). -/
theorem index_formulas_witness :
    calculate_ndvi (fun _ _ b => (b : ℚ) : Img 1 1 5) 0 0
      = np_clip ((3 - 2) / (3 + 2 + eps)) (-1) 1 ∧
    calculate_ndwi (fun _ _ b => (b : ℚ) : Img 1 1 5) 0 0
      = np_clip ((1 - 3) / (1 + 3 + eps)) (-1) 1 ∧
    calculate_ndbi (fun _ _ b => (b : ℚ) : Img 1 1 5) 0 0
      = np_clip ((4 - 3) / (4 + 3 + eps)) (-1) 1 := by
  obtain ⟨h45, h5⟩ := index_formulas (fun _ _ b => (b : ℚ) : Img 1 1 5) 0 0
  obtain ⟨hv, hw⟩ := h45 (by norm_num)
  refine ⟨?_, ?_, ?_⟩
  · simpa using hv
  · simpa using hw
  · simpa using h5 (by norm_num)

/-- For binary values the threshold 0.1 on the absolute difference exactly
detects a flipped membership. -/
lemma abs_diff_gt_iff (a b : ℚ) (ha : a = 0 ∨ a = 1) (hb : b = 0 ∨ b = 1) :
    (|b - a| > change_threshold) ↔ a ≠ b := by
  rcases ha with h | h <;> rcases hb with h' | h' <;>
    subst h <;> subst h' <;> norm_num [change_threshold]

/-- C3: the unified change mask is set at a pixel iff some class's absolute
mask difference exceeds 0.1; for binary masks this is exactly a flip of
membership in some class, and the mask is clear iff all five memberships
agree.  (`true` is numpy's boolean 1, rendered as 255 by
`create_change_map`.) -/
theorem unified_change_mask_spec {H W : ℕ} (m1 m2 : LandCoverMasks H W)
    (i : Fin H) (j : Fin W) :
    (total_change m1 m2 i j = true ↔
      (|m2.built_up i j - m1.built_up i j| > change_threshold ∨
       |m2.water i j - m1.water i j| > change_threshold ∨
       |m2.forest i j - m1.forest i j| > change_threshold ∨
       |m2.vegetation i j - m1.vegetation i j| > change_threshold ∨
       |m2.barren i j - m1.barren i j| > change_threshold)) ∧
    (BinaryMasks m1 → BinaryMasks m2 →
      ((total_change m1 m2 i j = true ↔
        (m1.built_up i j ≠ m2.built_up i j ∨
         m1.water i j ≠ m2.water i j ∨
         m1.forest i j ≠ m2.forest i j ∨
         m1.vegetation i j ≠ m2.vegetation i j ∨
         m1.barren i j ≠ m2.barren i j)) ∧
       (total_change m1 m2 i j = false ↔
        (m1.built_up i j = m2.built_up i j ∧
         m1.water i j = m2.water i j ∧
         m1.forest i j = m2.forest i j ∧
         m1.vegetation i j = m2.vegetation i j ∧
         m1.barren i j = m2.barren i j)))) := by
  have hbase : total_change m1 m2 i j = true ↔
      (|m2.built_up i j - m1.built_up i j| > change_threshold ∨
       |m2.water i j - m1.water i j| > change_threshold ∨
       |m2.forest i j - m1.forest i j| > change_threshold ∨
       |m2.vegetation i j - m1.vegetation i j| > change_threshold ∨
       |m2.barren i j - m1.barren i j| > change_threshold) := by
    simp [total_change, Bool.or_eq_true, or_assoc]
  refine ⟨hbase, fun hb1 hb2 => ?_⟩
  obtain ⟨b1, w1, f1, v1, r1⟩ := hb1
  obtain ⟨b2, w2, f2, v2, r2⟩ := hb2
  have hflip : total_change m1 m2 i j = true ↔
      (m1.built_up i j ≠ m2.built_up i j ∨
       m1.water i j ≠ m2.water i j ∨
       m1.forest i j ≠ m2.forest i j ∨
       m1.vegetation i j ≠ m2.vegetation i j ∨
       m1.barren i j ≠ m2.barren i j) := by
    rw [hbase, abs_diff_gt_iff _ _ (b1 i j) (b2 i j),
      abs_diff_gt_iff _ _ (w1 i j) (w2 i j), abs_diff_gt_iff _ _ (f1 i j) (f2 i j),
      abs_diff_gt_iff _ _ (v1 i j) (v2 i j), abs_diff_gt_iff _ _ (r1 i j) (r2 i j)]
  refine ⟨hflip, ?_⟩
  rw [Bool.eq_false_iff, Ne, hflip]
  push_neg
  tauto

/-- Witness for C3: two binary 1×1 mask sets whose water/built-up
memberships flip produce a set change mask. -/
theorem unified_change_mask_spec_witness :
    BinaryMasks (LandCoverMasks.mk (fun _ _ => 0) (fun _ _ => 1) (fun _ _ => 0)
      (fun _ _ => 0) (fun _ _ => 0) : LandCoverMasks 1 1) ∧
    BinaryMasks (LandCoverMasks.mk (fun _ _ => 1) (fun _ _ => 0) (fun _ _ => 0)
      (fun _ _ => 0) (fun _ _ => 0) : LandCoverMasks 1 1) ∧
    total_change
      (LandCoverMasks.mk (fun _ _ => 0) (fun _ _ => 1) (fun _ _ => 0)
        (fun _ _ => 0) (fun _ _ => 0) : LandCoverMasks 1 1)
      (LandCoverMasks.mk (fun _ _ => 1) (fun _ _ => 0) (fun _ _ => 0)
        (fun _ _ => 0) (fun _ _ => 0)) 0 0 = true := by
  have hb1 : BinaryMasks (LandCoverMasks.mk (fun _ _ => 0) (fun _ _ => 1)
      (fun _ _ => 0) (fun _ _ => 0) (fun _ _ => 0) : LandCoverMasks 1 1) :=
    ⟨fun _ _ => Or.inl rfl, fun _ _ => Or.inr rfl, fun _ _ => Or.inl rfl,
     fun _ _ => Or.inl rfl, fun _ _ => Or.inl rfl⟩
  have hb2 : BinaryMasks (LandCoverMasks.mk (fun _ _ => 1) (fun _ _ => 0)
      (fun _ _ => 0) (fun _ _ => 0) (fun _ _ => 0) : LandCoverMasks 1 1) :=
    ⟨fun _ _ => Or.inr rfl, fun _ _ => Or.inl rfl, fun _ _ => Or.inl rfl,
     fun _ _ => Or.inl rfl, fun _ _ => Or.inl rfl⟩
  refine ⟨hb1, hb2, ?_⟩
  exact (((unified_change_mask_spec _ _ 0 0).2 hb1 hb2).1).mpr (Or.inl (by norm_num))

/-- C8: swapping the two input images leaves the unified change mask
identical, negates every per-class delta in the change record, and leaves
total_change_area unchanged. -/
theorem swap_inputs_symmetry {H W B1 B2 : ℕ} (image1 : Img H W B1)
    (image2 : Img H W B2) (i : Fin H) (j : Fin W) :
    (run_lulc_change_analysis image2 image1).change_mask i j
      = (run_lulc_change_analysis image1 image2).change_mask i j ∧
    (run_lulc_change_analysis image2 image1).change.built_up
      = -(run_lulc_change_analysis image1 image2).change.built_up ∧
    (run_lulc_change_analysis image2 image1).change.water
      = -(run_lulc_change_analysis image1 image2).change.water ∧
    (run_lulc_change_analysis image2 image1).change.forest
      = -(run_lulc_change_analysis image1 image2).change.forest ∧
    (run_lulc_change_analysis image2 image1).change.vegetation
      = -(run_lulc_change_analysis image1 image2).change.vegetation ∧
    (run_lulc_change_analysis image2 image1).change.barren
      = -(run_lulc_change_analysis image1 image2).change.barren ∧
    (run_lulc_change_analysis image2 image1).change_area
      = (run_lulc_change_analysis image1 image2).change_area := by
  refine ⟨?_, ?_, ?_, ?_, ?_, ?_, ?_⟩
  · simp [run_lulc_change_analysis, total_change, abs_sub_comm]
  · simp [run_lulc_change_analysis, change_stats]
  · simp [run_lulc_change_analysis, change_stats]
  · simp [run_lulc_change_analysis, change_stats]
  · simp [run_lulc_change_analysis, change_stats]
  · simp [run_lulc_change_analysis, change_stats]
  · simp [run_lulc_change_analysis, total_change_area, change_stats, abs_sub_comm]

/-- C9: the change record assigns each class the signed delta
percentage_image2 − percentage_image1, and total_change_area is half the
sum of the absolute deltas; the pipeline's result fields are exactly these
applied to its two per-image percentage records. -/
theorem change_record_and_total_area (p1 p2 : Percentages) {H W B1 B2 : ℕ}
    (image1 : Img H W B1) (image2 : Img H W B2) :
    (change_stats p1 p2).built_up = p2.built_up - p1.built_up ∧
    (change_stats p1 p2).water = p2.water - p1.water ∧
    (change_stats p1 p2).forest = p2.forest - p1.forest ∧
    (change_stats p1 p2).vegetation = p2.vegetation - p1.vegetation ∧
    (change_stats p1 p2).barren = p2.barren - p1.barren ∧
    total_change_area (change_stats p1 p2)
      = (|p2.built_up - p1.built_up| + |p2.water - p1.water| +
          |p2.forest - p1.forest| + |p2.vegetation - p1.vegetation| +
          |p2.barren - p1.barren|) / 2 ∧
    (run_lulc_change_analysis image1 image2).change
      = change_stats (run_lulc_change_analysis image1 image2).image1
          (run_lulc_change_analysis image1 image2).image2 ∧
    (run_lulc_change_analysis image1 image2).change_area
      = total_change_area ((run_lulc_change_analysis image1 image2).change) :=
  ⟨rfl, rfl, rfl, rfl, rfl, rfl, rfl, rfl⟩

/-- The sum of 1 over all pixels is the pixel count H·W. -/
lemma sum_ones {H W : ℕ} : (∑ _i : Fin H, ∑ _j : Fin W, (1:ℚ)) = ((H * W : ℕ) : ℚ) := by
  simp only [Finset.sum_const, Finset.card_univ, Fintype.card_fin, nsmul_eq_mul, mul_one]
  push_cast
  ring

/-- A binary mask has a nonnegative sum. -/
lemma np_sum_nonneg_of_binary {H W : ℕ} (a : Arr H W) (ha : IsBinary a) :
    0 ≤ np_sum a :=
  Finset.sum_nonneg fun i _ => Finset.sum_nonneg fun j _ => by
    rcases ha i j with h | h <;> simp [h]

/-- A binary mask's sum is at most the pixel count. -/
lemma np_sum_le_total_of_binary {H W : ℕ} (a : Arr H W) (ha : IsBinary a) :
    np_sum a ≤ ((H * W : ℕ) : ℚ) := by
  calc np_sum a ≤ ∑ _i : Fin H, ∑ _j : Fin W, (1:ℚ) :=
        Finset.sum_le_sum fun i _ => Finset.sum_le_sum fun j _ => by
          rcases ha i j with h | h <;> simp [h]
    _ = ((H * W : ℕ) : ℚ) := sum_ones

/-- For a binary mask, `np.sum` equals the count of 1.0-valued pixels. -/
lemma np_sum_eq_countOnes {H W : ℕ} (a : Arr H W) (ha : IsBinary a) :
    np_sum a = (countOnes a : ℚ) := by
  unfold np_sum countOnes
  push_cast
  refine Finset.sum_congr rfl fun i _ => Finset.sum_congr rfl fun j _ => ?_
  rcases ha i j with h | h <;> simp [h]

/-- `S / T * 100` lies in [0, 100] when 0 ≤ S ≤ T and T > 0. -/
lemma perc_bounds {S T : ℚ} (hS : 0 ≤ S) (hST : S ≤ T) (hT : 0 < T) :
    0 ≤ S / T * 100 ∧ S / T * 100 ≤ 100 := by
  constructor
  · positivity
  · rw [div_mul_eq_mul_div, div_le_iff₀ hT]
    linarith

/-- At every pixel the five final masks sum to at most 1 (mutual
exclusivity, additive form). -/
lemma classify_pointwise_sum_le_one {H W : ℕ} (ndvi ndwi ndbi : Arr H W)
    (i : Fin H) (j : Fin W) :
    (classify_land_cover ndvi ndwi ndbi).built_up i j +
    (classify_land_cover ndvi ndwi ndbi).water i j +
    (classify_land_cover ndvi ndwi ndbi).forest i j +
    (classify_land_cover ndvi ndwi ndbi).vegetation i j +
    (classify_land_cover ndvi ndwi ndbi).barren i j ≤ 1 := by
  simp only [classify_built_up_eq, classify_water_eq, classify_forest_eq,
    classify_vegetation_eq, classify_barren_eq]
  split_ifs <;> norm_num <;> linarith

/-- C4: for binary class masks, `calculate_land_cover_percentages` returns
(count of 1.0-valued pixels / (H·W)) × 100 per class; each percentage lies
in [0, 100]; and for masks produced by `classify_land_cover` the five
percentages sum to at most 100. -/
theorem land_cover_percentages_spec {H W : ℕ} (hpos : 0 < H * W)
    (built_up water forest vegetation barren : Arr H W)
    (h1 : IsBinary built_up) (h2 : IsBinary water) (h3 : IsBinary forest)
    (h4 : IsBinary vegetation) (h5 : IsBinary barren) :
    ((calculate_land_cover_percentages built_up water forest vegetation barren).built_up
        = (countOnes built_up : ℚ) / ((H * W : ℕ) : ℚ) * 100 ∧
      (calculate_land_cover_percentages built_up water forest vegetation barren).water
        = (countOnes water : ℚ) / ((H * W : ℕ) : ℚ) * 100 ∧
      (calculate_land_cover_percentages built_up water forest vegetation barren).forest
        = (countOnes forest : ℚ) / ((H * W : ℕ) : ℚ) * 100 ∧
      (calculate_land_cover_percentages built_up water forest vegetation barren).vegetation
        = (countOnes vegetation : ℚ) / ((H * W : ℕ) : ℚ) * 100 ∧
      (calculate_land_cover_percentages built_up water forest vegetation barren).barren
        = (countOnes barren : ℚ) / ((H * W : ℕ) : ℚ) * 100) ∧
    ((0 ≤ (calculate_land_cover_percentages built_up water forest vegetation barren).built_up ∧
        (calculate_land_cover_percentages built_up water forest vegetation barren).built_up ≤ 100) ∧
      (0 ≤ (calculate_land_cover_percentages built_up water forest vegetation barren).water ∧
        (calculate_land_cover_percentages built_up water forest vegetation barren).water ≤ 100) ∧
      (0 ≤ (calculate_land_cover_percentages built_up water forest vegetation barren).forest ∧
        (calculate_land_cover_percentages built_up water forest vegetation barren).forest ≤ 100) ∧
      (0 ≤ (calculate_land_cover_percentages built_up water forest vegetation barren).vegetation ∧
        (calculate_land_cover_percentages built_up water forest vegetation barren).vegetation ≤ 100) ∧
      (0 ≤ (calculate_land_cover_percentages built_up water forest vegetation barren).barren ∧
        (calculate_land_cover_percentages built_up water forest vegetation barren).barren ≤ 100)) ∧
    (∀ ndvi ndwi ndbi : Arr H W,
      (calculate_land_cover_percentages
          (classify_land_cover ndvi ndwi ndbi).built_up
          (classify_land_cover ndvi ndwi ndbi).water
          (classify_land_cover ndvi ndwi ndbi).forest
          (classify_land_cover ndvi ndwi ndbi).vegetation
          (classify_land_cover ndvi ndwi ndbi).barren).built_up +
        (calculate_land_cover_percentages
          (classify_land_cover ndvi ndwi ndbi).built_up
          (classify_land_cover ndvi ndwi ndbi).water
          (classify_land_cover ndvi ndwi ndbi).forest
          (classify_land_cover ndvi ndwi ndbi).vegetation
          (classify_land_cover ndvi ndwi ndbi).barren).water +
        (calculate_land_cover_percentages
          (classify_land_cover ndvi ndwi ndbi).built_up
          (classify_land_cover ndvi ndwi ndbi).water
          (classify_land_cover ndvi ndwi ndbi).forest
          (classify_land_cover ndvi ndwi ndbi).vegetation
          (classify_land_cover ndvi ndwi ndbi).barren).forest +
        (calculate_land_cover_percentages
          (classify_land_cover ndvi ndwi ndbi).built_up
          (classify_land_cover ndvi ndwi ndbi).water
          (classify_land_cover ndvi ndwi ndbi).forest
          (classify_land_cover ndvi ndwi ndbi).vegetation
          (classify_land_cover ndvi ndwi ndbi).barren).vegetation +
        (calculate_land_cover_percentages
          (classify_land_cover ndvi ndwi ndbi).built_up
          (classify_land_cover ndvi ndwi ndbi).water
          (classify_land_cover ndvi ndwi ndbi).forest
          (classify_land_cover ndvi ndwi ndbi).vegetation
          (classify_land_cover ndvi ndwi ndbi).barren).barren ≤ 100) := by
  have hT : (0:ℚ) < ((H * W : ℕ) : ℚ) := by exact_mod_cast hpos
  refine ⟨?_, ?_, ?_⟩
  · exact ⟨by rw [calculate_land_cover_percentages, np_sum_eq_countOnes _ h1],
      by rw [calculate_land_cover_percentages, np_sum_eq_countOnes _ h2],
      by rw [calculate_land_cover_percentages, np_sum_eq_countOnes _ h3],
      by rw [calculate_land_cover_percentages, np_sum_eq_countOnes _ h4],
      by rw [calculate_land_cover_percentages, np_sum_eq_countOnes _ h5]⟩
  · exact ⟨perc_bounds (np_sum_nonneg_of_binary _ h1) (np_sum_le_total_of_binary _ h1) hT,
      perc_bounds (np_sum_nonneg_of_binary _ h2) (np_sum_le_total_of_binary _ h2) hT,
      perc_bounds (np_sum_nonneg_of_binary _ h3) (np_sum_le_total_of_binary _ h3) hT,
      perc_bounds (np_sum_nonneg_of_binary _ h4) (np_sum_le_total_of_binary _ h4) hT,
      perc_bounds (np_sum_nonneg_of_binary _ h5) (np_sum_le_total_of_binary _ h5) hT⟩
  · intro ndvi ndwi ndbi
    have hsum : np_sum (classify_land_cover ndvi ndwi ndbi).built_up +
        np_sum (classify_land_cover ndvi ndwi ndbi).water +
        np_sum (classify_land_cover ndvi ndwi ndbi).forest +
        np_sum (classify_land_cover ndvi ndwi ndbi).vegetation +
        np_sum (classify_land_cover ndvi ndwi ndbi).barren ≤ ((H * W : ℕ) : ℚ) := by
      have hdist : np_sum (classify_land_cover ndvi ndwi ndbi).built_up +
          np_sum (classify_land_cover ndvi ndwi ndbi).water +
          np_sum (classify_land_cover ndvi ndwi ndbi).forest +
          np_sum (classify_land_cover ndvi ndwi ndbi).vegetation +
          np_sum (classify_land_cover ndvi ndwi ndbi).barren
          = ∑ i : Fin H, ∑ j : Fin W,
              ((classify_land_cover ndvi ndwi ndbi).built_up i j +
               (classify_land_cover ndvi ndwi ndbi).water i j +
               (classify_land_cover ndvi ndwi ndbi).forest i j +
               (classify_land_cover ndvi ndwi ndbi).vegetation i j +
               (classify_land_cover ndvi ndwi ndbi).barren i j) := by
        simp [np_sum, Finset.sum_add_distrib]
      rw [hdist]
      calc (∑ i : Fin H, ∑ j : Fin W,
              ((classify_land_cover ndvi ndwi ndbi).built_up i j +
               (classify_land_cover ndvi ndwi ndbi).water i j +
               (classify_land_cover ndvi ndwi ndbi).forest i j +
               (classify_land_cover ndvi ndwi ndbi).vegetation i j +
               (classify_land_cover ndvi ndwi ndbi).barren i j))
          ≤ ∑ _i : Fin H, ∑ _j : Fin W, (1:ℚ) :=
            Finset.sum_le_sum fun i _ => Finset.sum_le_sum fun j _ =>
              classify_pointwise_sum_le_one ndvi ndwi ndbi i j
        _ = ((H * W : ℕ) : ℚ) := sum_ones
    simp only [calculate_land_cover_percentages]
    rw [div_mul_eq_mul_div, div_mul_eq_mul_div, div_mul_eq_mul_div,
      div_mul_eq_mul_div, div_mul_eq_mul_div, div_add_div_same,
      div_add_div_same, div_add_div_same, div_add_div_same, div_le_iff₀ hT]
    linarith

/-- Witness for C4: on the 1×1 all-built-up mask set, the built-up
percentage equals count/total × 100 and is at most 100, and on zero index
arrays the five classified percentages sum to at most 100. -/
theorem land_cover_percentages_spec_witness :
    (calculate_land_cover_percentages (fun _ _ => 1 : Arr 1 1) (fun _ _ => 0)
      (fun _ _ => 0) (fun _ _ => 0) (fun _ _ => 0)).built_up
      = (countOnes (fun _ _ => 1 : Arr 1 1) : ℚ) / ((1 * 1 : ℕ) : ℚ) * 100 ∧
    (calculate_land_cover_percentages (fun _ _ => 1 : Arr 1 1) (fun _ _ => 0)
      (fun _ _ => 0) (fun _ _ => 0) (fun _ _ => 0)).built_up ≤ 100 ∧
    (calculate_land_cover_percentages
        (classify_land_cover (fun _ _ => 0 : Arr 1 1) (fun _ _ => 0) (fun _ _ => 0)).built_up
        (classify_land_cover (fun _ _ => 0 : Arr 1 1) (fun _ _ => 0) (fun _ _ => 0)).water
        (classify_land_cover (fun _ _ => 0 : Arr 1 1) (fun _ _ => 0) (fun _ _ => 0)).forest
        (classify_land_cover (fun _ _ => 0 : Arr 1 1) (fun _ _ => 0) (fun _ _ => 0)).vegetation
        (classify_land_cover (fun _ _ => 0 : Arr 1 1) (fun _ _ => 0) (fun _ _ => 0)).barren).built_up +
      (calculate_land_cover_percentages
        (classify_land_cover (fun _ _ => 0 : Arr 1 1) (fun _ _ => 0) (fun _ _ => 0)).built_up
        (classify_land_cover (fun _ _ => 0 : Arr 1 1) (fun _ _ => 0) (fun _ _ => 0)).water
        (classify_land_cover (fun _ _ => 0 : Arr 1 1) (fun _ _ => 0) (fun _ _ => 0)).forest
        (classify_land_cover (fun _ _ => 0 : Arr 1 1) (fun _ _ => 0) (fun _ _ => 0)).vegetation
        (classify_land_cover (fun _ _ => 0 : Arr 1 1) (fun _ _ => 0) (fun _ _ => 0)).barren).water +
      (calculate_land_cover_percentages
        (classify_land_cover (fun _ _ => 0 : Arr 1 1) (fun _ _ => 0) (fun _ _ => 0)).built_up
        (classify_land_cover (fun _ _ => 0 : Arr 1 1) (fun _ _ => 0) (fun _ _ => 0)).water
        (classify_land_cover (fun _ _ => 0 : Arr 1 1) (fun _ _ => 0) (fun _ _ => 0)).forest
        (classify_land_cover (fun _ _ => 0 : Arr 1 1) (fun _ _ => 0) (fun _ _ => 0)).vegetation
        (classify_land_cover (fun _ _ => 0 : Arr 1 1) (fun _ _ => 0) (fun _ _ => 0)).barren).forest +
      (calculate_land_cover_percentages
        (classify_land_cover (fun _ _ => 0 : Arr 1 1) (fun _ _ => 0) (fun _ _ => 0)).built_up
        (classify_land_cover (fun _ _ => 0 : Arr 1 1) (fun _ _ => 0) (fun _ _ => 0)).water
        (classify_land_cover (fun _ _ => 0 : Arr 1 1) (fun _ _ => 0) (fun _ _ => 0)).forest
        (classify_land_cover (fun _ _ => 0 : Arr 1 1) (fun _ _ => 0) (fun _ _ => 0)).vegetation
        (classify_land_cover (fun _ _ => 0 : Arr 1 1) (fun _ _ => 0) (fun _ _ => 0)).barren).vegetation +
      (calculate_land_cover_percentages
        (classify_land_cover (fun _ _ => 0 : Arr 1 1) (fun _ _ => 0) (fun _ _ => 0)).built_up
        (classify_land_cover (fun _ _ => 0 : Arr 1 1) (fun _ _ => 0) (fun _ _ => 0)).water
        (classify_land_cover (fun _ _ => 0 : Arr 1 1) (fun _ _ => 0) (fun _ _ => 0)).forest
        (classify_land_cover (fun _ _ => 0 : Arr 1 1) (fun _ _ => 0) (fun _ _ => 0)).vegetation
        (classify_land_cover (fun _ _ => 0 : Arr 1 1) (fun _ _ => 0) (fun _ _ => 0)).barren).barren ≤ 100 := by
  have h := land_cover_percentages_spec (H := 1) (W := 1) (by norm_num)
    (fun _ _ => 1) (fun _ _ => 0) (fun _ _ => 0) (fun _ _ => 0) (fun _ _ => 0)
    (fun _ _ => Or.inr rfl) (fun _ _ => Or.inl rfl) (fun _ _ => Or.inl rfl)
    (fun _ _ => Or.inl rfl) (fun _ _ => Or.inl rfl)
  exact ⟨h.1.1, h.2.1.1.2, h.2.2 (fun _ _ => 0) (fun _ _ => 0) (fun _ _ => 0)⟩

/-- With fewer than 4 bands, NDVI degrades to zero. -/
lemma ndvi_zero_of_few_bands {H W B : ℕ} (image : Img H W B) (h : B < 4)
    (i : Fin H) (j : Fin W) : calculate_ndvi image i j = 0 := by
  simp [calculate_ndvi, h]

/-- With fewer than 4 bands, NDWI degrades to zero. -/
lemma ndwi_zero_of_few_bands {H W B : ℕ} (image : Img H W B) (h : B < 4)
    (i : Fin H) (j : Fin W) : calculate_ndwi image i j = 0 := by
  simp [calculate_ndwi, h]

/-- With fewer than 5 bands, NDBI degrades to zero. -/
lemma ndbi_zero_of_few_bands {H W B : ℕ} (image : Img H W B) (h : B < 5)
    (i : Fin H) (j : Fin W) : calculate_ndbi image i j = 0 := by
  simp [calculate_ndbi, h]

/-- C10: for an image with fewer than 4 bands, all three indices are zero,
classification marks every pixel barren and nothing else, and the resulting
percentages are exactly 100 for Barren Land and 0 for the other four
classes. -/
theorem few_bands_all_barren {H W B : ℕ} (image : Img H W B) (hB : B < 4)
    (hpos : 0 < H * W) :
    (∀ (i : Fin H) (j : Fin W), calculate_ndvi image i j = 0 ∧
      calculate_ndwi image i j = 0 ∧ calculate_ndbi image i j = 0) ∧
    (∀ (i : Fin H) (j : Fin W),
      (classify_land_cover (calculate_ndvi image) (calculate_ndwi image)
        (calculate_ndbi image)).barren i j = 1 ∧
      (classify_land_cover (calculate_ndvi image) (calculate_ndwi image)
        (calculate_ndbi image)).built_up i j = 0 ∧
      (classify_land_cover (calculate_ndvi image) (calculate_ndwi image)
        (calculate_ndbi image)).water i j = 0 ∧
      (classify_land_cover (calculate_ndvi image) (calculate_ndwi image)
        (calculate_ndbi image)).forest i j = 0 ∧
      (classify_land_cover (calculate_ndvi image) (calculate_ndwi image)
        (calculate_ndbi image)).vegetation i j = 0) ∧
    ((calculate_land_cover_percentages
        (classify_land_cover (calculate_ndvi image) (calculate_ndwi image)
          (calculate_ndbi image)).built_up
        (classify_land_cover (calculate_ndvi image) (calculate_ndwi image)
          (calculate_ndbi image)).water
        (classify_land_cover (calculate_ndvi image) (calculate_ndwi image)
          (calculate_ndbi image)).forest
        (classify_land_cover (calculate_ndvi image) (calculate_ndwi image)
          (calculate_ndbi image)).vegetation
        (classify_land_cover (calculate_ndvi image) (calculate_ndwi image)
          (calculate_ndbi image)).barren).barren = 100 ∧
      (calculate_land_cover_percentages
        (classify_land_cover (calculate_ndvi image) (calculate_ndwi image)
          (calculate_ndbi image)).built_up
        (classify_land_cover (calculate_ndvi image) (calculate_ndwi image)
          (calculate_ndbi image)).water
        (classify_land_cover (calculate_ndvi image) (calculate_ndwi image)
          (calculate_ndbi image)).forest
        (classify_land_cover (calculate_ndvi image) (calculate_ndwi image)
          (calculate_ndbi image)).vegetation
        (classify_land_cover (calculate_ndvi image) (calculate_ndwi image)
          (calculate_ndbi image)).barren).built_up = 0 ∧
      (calculate_land_cover_percentages
        (classify_land_cover (calculate_ndvi image) (calculate_ndwi image)
          (calculate_ndbi image)).built_up
        (classify_land_cover (calculate_ndvi image) (calculate_ndwi image)
          (calculate_ndbi image)).water
        (classify_land_cover (calculate_ndvi image) (calculate_ndwi image)
          (calculate_ndbi image)).forest
        (classify_land_cover (calculate_ndvi image) (calculate_ndwi image)
          (calculate_ndbi image)).vegetation
        (classify_land_cover (calculate_ndvi image) (calculate_ndwi image)
          (calculate_ndbi image)).barren).water = 0 ∧
      (calculate_land_cover_percentages
        (classify_land_cover (calculate_ndvi image) (calculate_ndwi image)
          (calculate_ndbi image)).built_up
        (classify_land_cover (calculate_ndvi image) (calculate_ndwi image)
          (calculate_ndbi image)).water
        (classify_land_cover (calculate_ndvi image) (calculate_ndwi image)
          (calculate_ndbi image)).forest
        (classify_land_cover (calculate_ndvi image) (calculate_ndwi image)
          (calculate_ndbi image)).vegetation
        (classify_land_cover (calculate_ndvi image) (calculate_ndwi image)
          (calculate_ndbi image)).barren).forest = 0 ∧
      (calculate_land_cover_percentages
        (classify_land_cover (calculate_ndvi image) (calculate_ndwi image)
          (calculate_ndbi image)).built_up
        (classify_land_cover (calculate_ndvi image) (calculate_ndwi image)
          (calculate_ndbi image)).water
        (classify_land_cover (calculate_ndvi image) (calculate_ndwi image)
          (calculate_ndbi image)).forest
        (classify_land_cover (calculate_ndvi image) (calculate_ndwi image)
          (calculate_ndbi image)).vegetation
        (classify_land_cover (calculate_ndvi image) (calculate_ndwi image)
          (calculate_ndbi image)).barren).vegetation = 0) := by
  have hB5 : B < 5 := by omega
  have hz : ∀ (i : Fin H) (j : Fin W), calculate_ndvi image i j = 0 ∧
      calculate_ndwi image i j = 0 ∧ calculate_ndbi image i j = 0 :=
    fun i j => ⟨ndvi_zero_of_few_bands image hB i j,
      ndwi_zero_of_few_bands image hB i j, ndbi_zero_of_few_bands image hB5 i j⟩
  have hbar : ∀ (i : Fin H) (j : Fin W),
      (classify_land_cover (calculate_ndvi image) (calculate_ndwi image)
        (calculate_ndbi image)).barren i j = 1 := by
    intro i j
    rw [classify_barren_eq, (hz i j).1, (hz i j).2.1, (hz i j).2.2]
    norm_num
  have hmask0 : ∀ (i : Fin H) (j : Fin W),
      (classify_land_cover (calculate_ndvi image) (calculate_ndwi image)
        (calculate_ndbi image)).built_up i j = 0 ∧
      (classify_land_cover (calculate_ndvi image) (calculate_ndwi image)
        (calculate_ndbi image)).water i j = 0 ∧
      (classify_land_cover (calculate_ndvi image) (calculate_ndwi image)
        (calculate_ndbi image)).forest i j = 0 ∧
      (classify_land_cover (calculate_ndvi image) (calculate_ndwi image)
        (calculate_ndbi image)).vegetation i j = 0 := by
    intro i j
    rw [classify_built_up_eq, classify_water_eq, classify_forest_eq,
      classify_vegetation_eq, (hz i j).1, (hz i j).2.1, (hz i j).2.2]
    norm_num
  have hTne : ((H * W : ℕ) : ℚ) ≠ 0 := Nat.cast_ne_zero.mpr (by omega)
  have hzero_sum : ∀ a : Arr H W, (∀ i j, a i j = 0) → np_sum a = 0 := by
    intro a ha
    unfold np_sum
    exact Finset.sum_eq_zero fun i _ => Finset.sum_eq_zero fun j _ => ha i j
  have hbar_sum : np_sum (classify_land_cover (calculate_ndvi image)
      (calculate_ndwi image) (calculate_ndbi image)).barren = ((H * W : ℕ) : ℚ) := by
    calc np_sum (classify_land_cover (calculate_ndvi image) (calculate_ndwi image)
          (calculate_ndbi image)).barren
        = ∑ _i : Fin H, ∑ _j : Fin W, (1:ℚ) :=
          Finset.sum_congr rfl fun i _ => Finset.sum_congr rfl fun j _ => hbar i j
      _ = ((H * W : ℕ) : ℚ) := sum_ones
  refine ⟨hz, fun i j => ⟨hbar i j, hmask0 i j⟩, ?_, ?_, ?_, ?_, ?_⟩
  · simp only [calculate_land_cover_percentages]
    rw [hbar_sum, div_self hTne]
    norm_num
  · simp only [calculate_land_cover_percentages]
    rw [hzero_sum _ fun i j => (hmask0 i j).1]
    norm_num
  · simp only [calculate_land_cover_percentages]
    rw [hzero_sum _ fun i j => (hmask0 i j).2.1]
    norm_num
  · simp only [calculate_land_cover_percentages]
    rw [hzero_sum _ fun i j => (hmask0 i j).2.2.1]
    norm_num
  · simp only [calculate_land_cover_percentages]
    rw [hzero_sum _ fun i j => (hmask0 i j).2.2.2]
    norm_num

/-- Witness for C10: a 1×1 3-band image is reported as 100% Barren Land. -/
theorem few_bands_all_barren_witness :
    (calculate_land_cover_percentages
      (classify_land_cover (calculate_ndvi (fun _ _ _ => 7 : Img 1 1 3))
        (calculate_ndwi (fun _ _ _ => 7 : Img 1 1 3))
        (calculate_ndbi (fun _ _ _ => 7 : Img 1 1 3))).built_up
      (classify_land_cover (calculate_ndvi (fun _ _ _ => 7 : Img 1 1 3))
        (calculate_ndwi (fun _ _ _ => 7 : Img 1 1 3))
        (calculate_ndbi (fun _ _ _ => 7 : Img 1 1 3))).water
      (classify_land_cover (calculate_ndvi (fun _ _ _ => 7 : Img 1 1 3))
        (calculate_ndwi (fun _ _ _ => 7 : Img 1 1 3))
        (calculate_ndbi (fun _ _ _ => 7 : Img 1 1 3))).forest
      (classify_land_cover (calculate_ndvi (fun _ _ _ => 7 : Img 1 1 3))
        (calculate_ndwi (fun _ _ _ => 7 : Img 1 1 3))
        (calculate_ndbi (fun _ _ _ => 7 : Img 1 1 3))).vegetation
      (classify_land_cover (calculate_ndvi (fun _ _ _ => 7 : Img 1 1 3))
        (calculate_ndwi (fun _ _ _ => 7 : Img 1 1 3))
        (calculate_ndbi (fun _ _ _ => 7 : Img 1 1 3))).barren).barren = 100 :=
  (few_bands_all_barren (fun _ _ _ => 7 : Img 1 1 3) (by norm_num) (by norm_num)).2.2.1
